import Mathlib

/-!
Shallow embedding of `depdf/page.py` (the `DePage` per-page analysis pipeline).

Numbers are modelled as `ℚ` (the Python code mixes `int`, `float` and
`Decimal`; all arithmetic appearing in the modelled code is exact on the
rationals).  Python code that can raise an exception is modelled with
`Option`: a `none` result means the corresponding Python code raises.
In particular Python's division raises `ZeroDivisionError` on a zero
divisor, which is modelled by `pydiv`.
-/

/-- Python division: raises (returns `none`) when the divisor is zero. -/
def pydiv (a b : ℚ) : Option ℚ :=
  if b = 0 then none else some (a / b)

/-- A bounding box `(x0, top, x1, bottom)` as used throughout `page.py`. -/
structure BBox where
  x0 : ℚ
  top : ℚ
  x1 : ℚ
  bottom : ℚ
deriving DecidableEq, Repr

/-- A word dict produced by `pdfplumber.extract_words`: the keys `x0`, `top`,
`x1`, `bottom`, `text` that `page.py` reads. -/
structure Phrase where
  x0 : ℚ
  top : ℚ
  x1 : ℚ
  bottom : ℚ
  text : String
deriving DecidableEq, Repr

/-- A char dict (glyph); only the `top` and `bottom` keys are read by the
phrase-normalization code in `extract_phrases`. -/
structure Glyph where
  top : ℚ
  bottom : ℚ
deriving DecidableEq, Repr

/-- The paragraph border 4-tuple `(ll, tt, lr, tb)` stored in `self.border`. -/
structure Border where
  ll : ℚ
  tt : ℚ
  lr : ℚ
  tb : ℚ
deriving DecidableEq, Repr

/-- The `para_style` dict: possible keys are `font-size` (from `ave_ts`),
`align: center` and `margin-left`. -/
structure ParaStyle where
  fontSize : Option ℚ
  alignCenter : Bool
  marginLeft : Option ℚ
deriving DecidableEq, Repr

/-- The empty `para_style` dict `{}`. -/
def ParaStyle.empty : ParaStyle := ⟨none, false, none⟩

/-- A paragraph inner object: `Text(bbox, text)` for a new visual line, or
`Span(bbox, span_text, style={margin-left})` for a same-line continuation. -/
inductive PObj where
  | text (bbox : BBox) (text : String)
  | span (bbox : BBox) (spanText : String) (marginLeft : ℚ)
deriving DecidableEq, Repr

/-- The `Paragraph` component as constructed in `extract_paragraph`:
`Paragraph(pid, para_idx, inner_objects, style)`. -/
structure Paragraph where
  pid : ℤ
  paraIdx : ℕ
  innerObjects : List PObj
  style : ParaStyle
deriving DecidableEq, Repr

/-- The page state read by `extract_paragraph`: `self.border`, `self.ave_cs`,
`self.ave_lh`, `self.width`, `self.toc_flag`, and the four phrase exclusion
lists (`self.same_tmp`, `self._image_phrases`, `self._table_phrases`,
`self.pagination_phrases`). -/
structure ExtractInput where
  pid : ℤ
  border : Border
  aveCS : ℚ
  aveLH : ℚ
  width : ℚ
  tocFlag : Bool
  sameTmp : List Phrase
  imagePhrases : List Phrase
  tablePhrases : List Phrase
  paginationPhrases : List Phrase
deriving DecidableEq, Repr

/-- The skip test at the top of the `extract_paragraph` loop:
`i in self.same_tmp or i in self._image_phrases or i in self._table_phrases
or i in self.pagination_phrases`. -/
def excluded (inp : ExtractInput) (i : Phrase) : Prop :=
  i ∈ inp.sameTmp ∨ i ∈ inp.imagePhrases ∨ i ∈ inp.tablePhrases ∨ i ∈ inp.paginationPhrases

instance (inp : ExtractInput) (i : Phrase) : Decidable (excluded inp i) := by
  unfold excluded; infer_instance

/-- Loop-carried state of the `extract_paragraph` fold: the previous line's
bbox `(p_left, p_top, p_right, p_bottom)` plus the variables `left`,
`ave_ts`, `div_flag`, `center_flag`, `para_idx`, `para_style`,
`paragraph_objects` and `paragraphs` that survive between iterations. -/
structure SegState where
  pLeft : ℚ
  pTop : ℚ
  pRight : ℚ
  pBottom : ℚ
  left : ℚ
  aveTS : ℚ
  divFlag : Bool
  centerFlag : Bool
  paraIdx : ℕ
  paraStyle : ParaStyle
  paragraphObjects : List PObj
  paragraphs : List Paragraph
deriving DecidableEq, Repr

/-- Initial loop state (lines 408-414 of `page.py`):
`p_top = p_bottom = tt`, `p_left = left = p_right = ll`, `para_idx = 1`,
`ave_ts = ave_cs`, empty flags, style and lists. -/
def initSeg (inp : ExtractInput) : SegState :=
  { pLeft := inp.border.ll, pTop := inp.border.tt,
    pRight := inp.border.ll, pBottom := inp.border.tt,
    left := inp.border.ll, aveTS := inp.aveCS,
    divFlag := false, centerFlag := false,
    paraIdx := 1, paraStyle := ParaStyle.empty,
    paragraphObjects := [], paragraphs := [] }

/-- The paragraph-style computation shared by lines 465-471 and 483-489 of
`page.py`: a `font-size` entry when `abs(ave_ts - ave_cs) / ave_cs >= 0.3`
(raising on `ave_cs = 0`), then `align: center` if `center_flag` else a
`margin-left` entry if `div_flag`. -/
def styleFromFlags (aveTS aveCS left ll : ℚ) (centerFlag divFlag : Bool) :
    Option ParaStyle :=
  match pydiv |aveTS - aveCS| aveCS with
  | none => none
  | some q =>
    let s1 := if q ≥ 3 / 10 then { ParaStyle.empty with fontSize := some aveTS }
              else ParaStyle.empty
    some (if centerFlag then { s1 with alignCenter := true }
          else if divFlag then { s1 with marginLeft := some (left - ll) }
          else s1)

/-- The `if not para_style:` style-inference guard (lines 465-471 of
`page.py`): the style is recomputed only when the current `para_style` dict
is empty, otherwise kept. -/
def styledOf (inp : ExtractInput) (aveTS left : ℚ) (centerFlag divFlag : Bool)
    (paraStyle1 : ParaStyle) : Option ParaStyle :=
  if paraStyle1 = ParaStyle.empty then
    styleFromFlags aveTS inp.aveCS left inp.border.ll centerFlag divFlag
  else some paraStyle1

/-- One non-skipped iteration of the `extract_paragraph` loop body
(lines 421-479 of `page.py`) on phrase `i`, given the formatter
`format_text` (from `page_tools`, passed as the parameter `ft`).
Returns `none` when the Python body raises (`ZeroDivisionError` from
`ave_ts = max((x1 - x0) / len(text), ave_cs)` on empty text, or from the
style computation when `ave_cs = 0`). -/
def segStepBody (ft : String → String) (inp : ExtractInput) (st : SegState)
    (i : Phrase) : Option SegState :=
  match pydiv (i.x1 - i.x0) (i.text.length : ℚ) with
  | none => none
  | some ts =>
    let ll := inp.border.ll
    let lr := inp.border.lr
    let aveTS := max ts inp.aveCS
    let aveTH := max (i.bottom - i.top) inp.aveCS
    let left := i.x0
    let top := i.top
    let right := i.x1
    let bottom := i.bottom
    let text := if i.text ≠ "" then ft i.text else ""
    -- `if not paragraphs: new_para_flag = True`
    let npf0 := st.paragraphs.isEmpty
    -- the flag computation: (new_line_flag, new_para_flag, center_flag, div_flag)
    let flags : Bool × Bool × Bool × Bool :=
      if inp.tocFlag then
        if bottom ≥ st.pBottom + aveTH / 4 then (true, true, false, false)
        else (false, npf0, false, false)
      else
        if bottom - st.pBottom ≥ aveTH / 4 then
          let demoted :=
            if top - st.pBottom ≤ max (aveTH * 6 / 5) inp.aveLH then
              (|left - ll| ≤ aveTS ∧ st.pRight > lr - aveTS * 3 / 2 ∧
                 |(bottom - top) - (st.pBottom - st.pTop)| ≤ 1) ∨
              (|left - ll| ≤ 1 ∧ st.pRight ≥ lr - aveTS * 3 / 2)
            else False
          if demoted then (true, false, false, false)
          else
            let cf := |inp.width - right - left| ≤ aveTS / 2 ∧ |lr - right| ≥ 4 * aveTS
            let df := left > ll + aveTS * 4
            (true, true, if cf then true else false, if df then true else false)
        else
          if |left - st.pRight| ≥ aveTS * 2 ∧ |top - st.pTop| ≤ aveTS / 2 then
            (false, false, false, false)
          else (true, npf0, false, false)
    let newLineFlag := flags.1
    let newParaFlag := flags.2.1
    let centerFlag := flags.2.2.1
    let divFlag := flags.2.2.2
    -- `if new_para_flag and paragraph_objects:` flush the accumulated paragraph
    let flush := newParaFlag ∧ st.paragraphObjects ≠ []
    let paragraphs1 := if flush then
        st.paragraphs ++ [⟨inp.pid, st.paraIdx, st.paragraphObjects, st.paraStyle⟩]
      else st.paragraphs
    let paraStyle1 := if flush then ParaStyle.empty else st.paraStyle
    let objects1 : List PObj := if flush then [] else st.paragraphObjects
    let paraIdx1 := if flush then st.paraIdx + 1 else st.paraIdx
    -- `if not para_style:` style inference, then the Text/Span append
    (styledOf inp aveTS left centerFlag divFlag paraStyle1).map fun paraStyle2 =>
      let entry : PObj := if newLineFlag then .text ⟨left, top, right, bottom⟩ text
        else .span ⟨left, top, right, bottom⟩ text (left - st.pLeft)
      { pLeft := left, pTop := top, pRight := right, pBottom := bottom,
        left := left, aveTS := aveTS,
        divFlag := divFlag, centerFlag := centerFlag,
        paraIdx := paraIdx1, paraStyle := paraStyle2,
        paragraphObjects := objects1 ++ [entry],
        paragraphs := paragraphs1 }

/-- One full iteration of the `extract_paragraph` loop: excluded phrases
(lines 417-419) are skipped, others run the loop body. -/
def segStep (ft : String → String) (inp : ExtractInput) (st : SegState)
    (i : Phrase) : Option SegState :=
  if excluded inp i then some st else segStepBody ft inp st i

/-- The `for i in self.phrases` loop of `extract_paragraph`. -/
def segLoop (ft : String → String) (inp : ExtractInput) :
    List Phrase → SegState → Option SegState
  | [], st => some st
  | i :: rest, st =>
    match segStep ft inp st i with
    | none => none
    | some st1 => segLoop ft inp rest st1

/-- The trailing-paragraph flush after the loop (lines 482-493 of `page.py`):
when `paragraph_objects` is nonempty, the style is recomputed from the last
iteration's `ave_ts`, `center_flag`, `div_flag` and `left`, and a final
`Paragraph` is appended. -/
def finalFlush (inp : ExtractInput) (st : SegState) : Option (List Paragraph) :=
  if st.paragraphObjects = [] then some st.paragraphs
  else
    match styleFromFlags st.aveTS inp.aveCS st.left inp.border.ll
        st.centerFlag st.divFlag with
    | none => none
    | some style =>
      some (st.paragraphs ++ [⟨inp.pid, st.paraIdx, st.paragraphObjects, style⟩])

/-- The continuation-flag computation (lines 495-504 of `page.py`): both
flags stay `None` without paragraphs; otherwise they default to `True`, and
`ave_ts` is recomputed from the first phrase of `self.phrases` (raising on
zero-length text), `new_para_start_flag` turns `False` when
`first_phrase['x0'] - ll <= max(ave_ts, ave_cs)`, and `new_para_end_flag`
turns `False` when `abs(p_right - lr) <= max(ave_ts, ave_cs) * 3 / 2`. -/
def contFlags (inp : ExtractInput) (phrases : List Phrase)
    (paragraphs : List Paragraph) (pRight : ℚ) :
    Option (Option Bool × Option Bool) :=
  if paragraphs = [] then some (none, none)
  else
    match phrases with
    | [] => some (some true, some true)
    | f :: _ =>
      match pydiv (f.x1 - f.x0) (f.text.length : ℚ) with
      | none => none
      | some ts =>
        some (some (if f.x0 - inp.border.ll ≤ max ts inp.aveCS then false else true),
              some (if |pRight - inp.border.lr| ≤ max ts inp.aveCS * 3 / 2
                    then false else true))

/-- The observable result of `extract_paragraph`: `self._paragraphs`,
`self.new_para_start_flag` and `self.new_para_end_flag`. -/
structure ExtractResult where
  paragraphs : List Paragraph
  newParaStartFlag : Option Bool
  newParaEndFlag : Option Bool
deriving DecidableEq, Repr

/-- The whole of `DePage.extract_paragraph` (lines 406-508 of `page.py`):
the phrase loop, the trailing flush, and the continuation flags.  A `none`
result models the Python method raising. -/
def extract_paragraph (ft : String → String) (inp : ExtractInput)
    (phrases : List Phrase) : Option ExtractResult :=
  match segLoop ft inp phrases (initSeg inp) with
  | none => none
  | some st =>
    match finalFlush inp st with
    | none => none
    | some paragraphs =>
      match contFlags inp phrases paragraphs st.pRight with
      | none => none
      | some fl => some ⟨paragraphs, fl.1, fl.2⟩

/-- The `extract_paragraph` loop with the skip test removed: it runs the
loop body on every phrase it is given. -/
def segLoopBody (ft : String → String) (inp : ExtractInput) :
    List Phrase → SegState → Option SegState
  | [], st => some st
  | i :: rest, st =>
    match segStepBody ft inp st i with
    | none => none
    | some st1 => segLoopBody ft inp rest st1

/-- The column `p_right` holds after the `extract_paragraph` loop: the right
edge of the last phrase that survived the exclusion sets, or the border's
left edge `ll` if no phrase survived (its initial value). -/
def lastSurvivingRight (inp : ExtractInput) (phrases : List Phrase) : ℚ :=
  ((phrases.filter fun i => !decide (excluded inp i)).getLast?).elim
    inp.border.ll (fun p => p.x1)

/-- Python `sorted` on rationals: insertion of an element into a sorted list. -/
def insertSorted (x : ℚ) : List ℚ → List ℚ
  | [] => [x]
  | y :: ys => if x ≤ y then x :: y :: ys else y :: insertSorted x ys

/-- Python `sorted` on rationals (insertion sort; the sorted list of values
is what `statistics.median` consumes). -/
def isort : List ℚ → List ℚ
  | [] => []
  | x :: xs => insertSorted x (isort xs)

/-- Python `statistics.median`: raises (`none`) on an empty list, returns the
middle element of the sorted data for odd length, and the average of the two
middle elements for even length. -/
def pyMedian (l : List ℚ) : Option ℚ :=
  let s := isort l
  let n := s.length
  if n = 0 then none
  else if n % 2 = 1 then s[n / 2]?
  else
    match s[n / 2 - 1]?, s[n / 2]? with
    | some a, some b => some ((a + b) / 2)
    | _, _ => none

/-- The per-phrase `try`-block of `extract_phrases` (lines 273-281 of
`page.py`): crop the page to the phrase's bbox and replace `top`/`bottom`
by the median glyph `top`/`bottom`; on any failure (crop raising, or
`median` raising on an empty glyph list) the phrase is left unchanged. -/
def normalizePhrase (crop : BBox → Option (List Glyph)) (w : Phrase) : Phrase :=
  match crop ⟨w.x0, w.top, w.x1, w.bottom⟩ with
  | none => w
  | some cs =>
    match pyMedian (cs.map Glyph.top), pyMedian (cs.map Glyph.bottom) with
    | some t, some b => { w with top := t, bottom := b }
    | _, _ => w

/-- A header/footer zone descriptor from `self.same`: the keys `mode`
(orientation), `level` (`head`/`tail`), `top` and `bottom` that
`analyze_main_frame` reads. -/
structure Zone where
  mode : String
  level : String
  top : ℚ
  bottom : ℚ
deriving DecidableEq, Repr

/-- Python `max` over a list: `none` on an empty list. -/
def pymax : List ℚ → Option ℚ
  | [] => none
  | x :: xs => some (xs.foldl max x)

/-- Python `min` over a list: `none` on an empty list. -/
def pymin : List ℚ → Option ℚ
  | [] => none
  | x :: xs => some (xs.foldl min x)

/-- A horizontal table edge dict `{top, x0, x1}` as stored in `self.h_edges`. -/
structure HEdge where
  top : ℚ
  x0 : ℚ
  x1 : ℚ
deriving DecidableEq, Repr

/-- A vertical table edge dict `{x, top, bottom}` as stored in `self.v_edges`. -/
structure VEdge where
  x : ℚ
  top : ℚ
  bottom : ℚ
deriving DecidableEq, Repr

/-- The mutable per-page state of a `DePage` object that `process_page` and
its stages read and write. -/
structure PageState where
  pid : ℤ
  same : List Zone
  sameTmp : List Phrase
  orientation : String
  aveCS : ℚ
  minCS : ℚ
  xTolerance : ℚ
  yTolerance : ℚ
  paginationPhrases : List Phrase
  phrases : List Phrase
  frameTop : ℚ
  frameBottom : ℚ
  aveLH : ℚ
  border : Border
  hEdges : List HEdge
  vEdges : List VEdge
  tocFlag : Bool
  tables : List BBox
  tablePhrases : List Phrase
  images : List BBox
  imagePhrases : List Phrase
  paragraphs : List Paragraph
  newParaStartFlag : Option Bool
  newParaEndFlag : Option Bool
deriving DecidableEq, Repr

/-- The configuration attributes read by the modelled stages: `y_tolerance`,
`x_tolerance`, `main_frame_tolerance` (each `None` or a number) and the
`table_flag` / `image_flag` / `paragraph_flag` feature gates. -/
structure DeConfig where
  yTolerance : Option ℚ
  xTolerance : Option ℚ
  mainFrameTolerance : Option ℚ
  tableFlag : Bool
  imageFlag : Bool
  paragraphFlag : Bool
deriving DecidableEq, Repr

/-- Per-page results of the external collaborators (pdfplumber and the
`page_tools` helpers, which are outside `src/`): character statistics,
orientation, page size, word extraction, pagination-phrase detection,
cropping, the cleaned table line sets, the table/image results with their
claimed phrases, and the paragraph border computation. -/
structure Extern where
  charSize : ℚ × ℚ
  pageOrientation : String
  pageWidth : ℚ
  pageHeight : ℚ
  extractWords : ℚ → ℚ → List Phrase
  analyzePageNumWord : List Phrase → List Phrase
  crop : BBox → Option (List Glyph)
  hEdges : List HEdge
  vEdges : List VEdge
  tables : List BBox
  tablePhrases : List Phrase
  images : List BBox
  imagePhrases : List Phrase
  calculateParagraphBorder : PageState → Border

/-- `DePage.analyze_page_attributes` (lines 230-242 of `page.py`):
`ave_cs`/`min_cs` from `analyze_char_size` (external), the orientation, and
the adaptive tolerances
`y_tolerance = 3 if ave_cs / 3 <= 3 else ave_cs / 2` and
`x_tolerance = ave_cs * 3 / 2`, each overridden by a non-`None`
configuration value. -/
def analyze_page_attributes (cfg : DeConfig) (ext : Extern) (st : PageState) :
    PageState :=
  let aveCS := ext.charSize.1
  let yTol : ℚ := if aveCS / 3 ≤ 3 then 3 else aveCS / 2
  { st with aveCS := aveCS, minCS := ext.charSize.2,
            orientation := ext.pageOrientation,
            yTolerance := match cfg.yTolerance with | some v => v | none => yTol,
            xTolerance := match cfg.xTolerance with
              | some v => v
              | none => aveCS * 3 / 2 }

/-- `DePage.analyze_main_frame` (lines 244-253 of `page.py`), part 1: the
margin `mft`, falling back to `ave_cs / 2` when not configured. -/
def mainFrameMft (cfg : DeConfig) (st : PageState) : ℚ :=
  match cfg.mainFrameTolerance with
  | some v => v
  | none => st.aveCS / 2

/-- `DePage.analyze_main_frame` body (continued): the filtered head/tail
zone lists and the frame bounds. -/
def analyze_main_frame (cfg : DeConfig) (ext : Extern) (st : PageState) :
    PageState :=
  let mft := mainFrameMft cfg st
  let tlBs := (st.same.filter fun i =>
      decide (i.mode = st.orientation ∧ i.level = "head")).map fun i => i.bottom + mft
  let blTs := (st.same.filter fun i =>
      decide (i.mode = st.orientation ∧ i.level = "tail")).map fun i => i.top
  { st with frameTop := (pymax tlBs).getD 0,
            frameBottom := (pymin blTs).getD ext.pageHeight }

/-- The successive inter-phrase gaps
`phrases[i + 1].top - phrases[i].bottom` of `extract_phrases`. -/
def pairGaps : List Phrase → List ℚ
  | a :: b :: rest => (b.top - a.bottom) :: pairGaps (b :: rest)
  | _ => []

/-- `DePage.extract_phrases` (lines 255-281 of `page.py`): word extraction
filtered to the content frame, the average line height from positive
inter-phrase gaps (falling back to `ave_cs / 2`), pagination-phrase
detection (external `analyze_page_num_word`), and the per-phrase median
normalization.  The pagination list aliases the phrase dicts that the
normalization loop mutates in place, so it is mapped through the same
normalization. -/
def extract_phrases (ext : Extern) (st : PageState) : PageState :=
  let phrases := (ext.extractWords st.xTolerance st.yTolerance).filter fun i =>
    decide (i.top ≥ st.frameTop ∧ i.bottom ≤ st.frameBottom)
  let lineHeights := (pairGaps phrases).filter fun x => decide (x > 0)
  let aveLH : ℚ := if lineHeights ≠ [] then lineHeights.sum / lineHeights.length
    else st.aveCS / 2
  let pagination := (ext.analyzePageNumWord phrases).map (normalizePhrase ext.crop)
  { st with phrases := phrases.map (normalizePhrase ext.crop),
            aveLH := aveLH, paginationPhrases := pagination }

/-- `DePage.analyze_lines` (lines 288-319 of `page.py`): the edge sourcing
and cleanup delegate to pdfplumber and `page_tools` helpers (outside
`src/`); its net effect on the page state is writing `h_edges`/`v_edges`. -/
def analyze_lines (ext : Extern) (st : PageState) : PageState :=
  { st with hEdges := ext.hEdges, vEdges := ext.vEdges }

/-- `DePage.extract_tables` (lines 331-359 of `page.py`): grid construction
delegates to pdfplumber `find_tables` and `convert_plumber_table` (outside
`src/`); its net effect is writing the table list and the table-claimed
phrase list. -/
def extract_tables (ext : Extern) (st : PageState) : PageState :=
  { st with tables := ext.tables, tablePhrases := ext.tablePhrases }

/-- `DePage.extract_images` (lines 361-395 of `page.py`): figure merging
delegates to `merge_page_figures` (outside `src/`); its net effect is
writing the image list and the image-claimed phrase list. -/
def extract_images (ext : Extern) (st : PageState) : PageState :=
  { st with images := ext.images, imagePhrases := ext.imagePhrases }

/-- `DePage.analyze_paragraph_border` (lines 397-404 of `page.py`): the
border is computed by `calculate_paragraph_border` (outside `src/`). -/
def analyze_paragraph_border (ext : Extern) (st : PageState) : PageState :=
  { st with border := ext.calculateParagraphBorder st }

/-- The slice of the page state that `extract_paragraph` reads. -/
def mkExtractInput (ext : Extern) (st : PageState) : ExtractInput :=
  ⟨st.pid, st.border, st.aveCS, st.aveLH, ext.pageWidth, st.tocFlag,
   st.sameTmp, st.imagePhrases, st.tablePhrases, st.paginationPhrases⟩

/-- `DePage.extract_paragraph` as a stage of `process_page`: runs the core
segmentation on the page state and writes `_paragraphs` and the
continuation flags. -/
def extract_paragraph_stage (ext : Extern) (ft : String → String)
    (st : PageState) : Option PageState :=
  match extract_paragraph ft (mkExtractInput ext st) st.phrases with
  | none => none
  | some r => some { st with paragraphs := r.paragraphs,
                             newParaStartFlag := r.newParaStartFlag,
                             newParaEndFlag := r.newParaEndFlag }

/-- `DePage.process_page` (lines 182-217 of `page.py`): the fixed stage
order `analyze_page_attributes` → `analyze_main_frame` → `extract_phrases`
→ (`analyze_lines` → `extract_tables` under `table_flag`) →
(`extract_images` under `image_flag`) → (`analyze_paragraph_border` →
`extract_paragraph` under `paragraph_flag`).  `remove_duplicate_chars`
(line 188) mutates only the raw pdfplumber char dicts, which the modelled
state reads through `Extern`; the final object aggregation (lines 214-217)
only collects `_tables`/`_paragraphs`/`_images` and is not part of the
state.  `none` models the method raising. -/
def process_page (cfg : DeConfig) (ext : Extern) (ft : String → String)
    (st : PageState) : Option PageState :=
  let st1 := analyze_page_attributes cfg ext st
  let st2 := analyze_main_frame cfg ext st1
  let st3 := extract_phrases ext st2
  let st4 := if cfg.tableFlag then extract_tables ext (analyze_lines ext st3) else st3
  let st5 := if cfg.imageFlag then extract_images ext st4 else st4
  if cfg.paragraphFlag then
    extract_paragraph_stage ext ft (analyze_paragraph_border ext st5)
  else some st5

/-- The kinds of Python objects relevant to the `DePage` constructor's type
checks: a `pdfplumber.page.Page`, a depdf `Config`, or anything else. -/
inductive PyKind where
  | plumberPage
  | depdfConfig
  | otherObject
deriving DecidableEq, Repr, Fintype

/-- The type-mismatch errors: `PageTypeError` raised by `check_page_type`,
and the configuration type error raised by `check_config_type`. -/
inductive DepdfError where
  | pageTypeError
  | configTypeError
deriving DecidableEq, Repr, Fintype

/-- `check_page_type` (lines 511-513 of `page.py`): raise `PageTypeError`
unless the argument is a pdfplumber `Page`. -/
def check_page_type (page : PyKind) : Except DepdfError Unit :=
  if page ≠ PyKind.plumberPage then Except.error DepdfError.pageTypeError
  else Except.ok ()

/-- Modelled from the spec: `check_config_type` lives in `depdf/config.py`,
which is not under `src/`; per the spec's error-handling policy, a
configuration object of the wrong kind is rejected immediately with a
type-mismatch error. -/
def check_config_type (config : PyKind) : Except DepdfError Unit :=
  if config ≠ PyKind.depdfConfig then Except.error DepdfError.configTypeError
  else Except.ok ()

/-- The type-checking skeleton of `DePage.__init__` (lines 52-71 of
`page.py`): `check_page_type(page)` then `check_config_type(config)`,
executed without any surrounding `try`/`except`, so any error propagates
directly to the caller; the remaining lines only assign fields. -/
def dePage_init (page config : PyKind) : Except DepdfError Unit := do
  check_page_type page
  check_config_type config

/-- The loop body of `extract_paragraph` with the table-of-contents branch
(lines 432-436 of `page.py`) removed: only the normal-mode line/paragraph
classification remains.  Used to state that the TOC branch is never taken
when `toc_flag` is false. -/
def segStepBodyNormal (ft : String → String) (inp : ExtractInput)
    (st : SegState) (i : Phrase) : Option SegState :=
  match pydiv (i.x1 - i.x0) (i.text.length : ℚ) with
  | none => none
  | some ts =>
    let ll := inp.border.ll
    let lr := inp.border.lr
    let aveTS := max ts inp.aveCS
    let aveTH := max (i.bottom - i.top) inp.aveCS
    let left := i.x0
    let top := i.top
    let right := i.x1
    let bottom := i.bottom
    let text := if i.text ≠ "" then ft i.text else ""
    let npf0 := st.paragraphs.isEmpty
    let flags : Bool × Bool × Bool × Bool :=
      if bottom - st.pBottom ≥ aveTH / 4 then
        let demoted :=
          if top - st.pBottom ≤ max (aveTH * 6 / 5) inp.aveLH then
            (|left - ll| ≤ aveTS ∧ st.pRight > lr - aveTS * 3 / 2 ∧
               |(bottom - top) - (st.pBottom - st.pTop)| ≤ 1) ∨
            (|left - ll| ≤ 1 ∧ st.pRight ≥ lr - aveTS * 3 / 2)
          else False
        if demoted then (true, false, false, false)
        else
          let cf := |inp.width - right - left| ≤ aveTS / 2 ∧ |lr - right| ≥ 4 * aveTS
          let df := left > ll + aveTS * 4
          (true, true, if cf then true else false, if df then true else false)
      else
        if |left - st.pRight| ≥ aveTS * 2 ∧ |top - st.pTop| ≤ aveTS / 2 then
          (false, false, false, false)
        else (true, npf0, false, false)
    let newLineFlag := flags.1
    let newParaFlag := flags.2.1
    let centerFlag := flags.2.2.1
    let divFlag := flags.2.2.2
    let flush := newParaFlag ∧ st.paragraphObjects ≠ []
    let paragraphs1 := if flush then
        st.paragraphs ++ [⟨inp.pid, st.paraIdx, st.paragraphObjects, st.paraStyle⟩]
      else st.paragraphs
    let paraStyle1 := if flush then ParaStyle.empty else st.paraStyle
    let objects1 : List PObj := if flush then [] else st.paragraphObjects
    let paraIdx1 := if flush then st.paraIdx + 1 else st.paraIdx
    (styledOf inp aveTS left centerFlag divFlag paraStyle1).map fun paraStyle2 =>
      let entry : PObj := if newLineFlag then .text ⟨left, top, right, bottom⟩ text
        else .span ⟨left, top, right, bottom⟩ text (left - st.pLeft)
      { pLeft := left, pTop := top, pRight := right, pBottom := bottom,
        left := left, aveTS := aveTS,
        divFlag := divFlag, centerFlag := centerFlag,
        paraIdx := paraIdx1, paraStyle := paraStyle2,
        paragraphObjects := objects1 ++ [entry],
        paragraphs := paragraphs1 }

/-- A `PageState` mirroring the `DePage` class-level attribute defaults
(lines 21-50 of `page.py`): in particular `toc_flag = False`,
`new_para_start_flag = new_para_end_flag = None`, `ave_lh = 3`,
`x_tolerance = y_tolerance = 3` and empty object lists. -/
def defaultPageState : PageState :=
  { pid := 1, same := [], sameTmp := [], orientation := "",
    aveCS := 0, minCS := 0, xTolerance := 3, yTolerance := 3,
    paginationPhrases := [], phrases := [], frameTop := 0, frameBottom := 0,
    aveLH := 3, border := ⟨0, 0, 0, 0⟩, hEdges := [], vEdges := [],
    tocFlag := false, tables := [], tablePhrases := [], images := [],
    imagePhrases := [], paragraphs := [],
    newParaStartFlag := none, newParaEndFlag := none }

/-- A sample external-collaborator record: a 600 x 800 page with average
char size 10, no words, no edges, no tables, no images. -/
def sampleExtern : Extern :=
  { charSize := (10, 5), pageOrientation := "portrait",
    pageWidth := 600, pageHeight := 800,
    extractWords := fun _ _ => [], analyzePageNumWord := fun _ => [],
    crop := fun _ => none, hEdges := [], vEdges := [],
    tables := [], tablePhrases := [], images := [], imagePhrases := [],
    calculateParagraphBorder := fun _ => ⟨0, 0, 600, 800⟩ }

/-! ### Lemmas and theorems -/

lemma segLoop_eq_filter (ft : String → String) (inp : ExtractInput) :
    ∀ (phrases : List Phrase) (st : SegState),
      segLoop ft inp phrases st =
        segLoopBody ft inp (phrases.filter fun i => !decide (excluded inp i)) st := by
  intro phrases
  induction phrases with
  | nil => intro st; rfl
  | cons i rest ih =>
    intro st
    by_cases h : excluded inp i
    · rw [List.filter_cons_of_neg (by simp [h])]
      show (match segStep ft inp st i with
            | none => none
            | some st1 => segLoop ft inp rest st1) = _
      rw [segStep, if_pos h]
      exact ih st
    · rw [List.filter_cons_of_pos (by simp [h])]
      show (match segStep ft inp st i with
            | none => none
            | some st1 => segLoop ft inp rest st1) = _
      rw [segStep, if_neg h]
      show _ = (match segStepBody ft inp st i with
                | none => none
                | some st1 => segLoopBody ft inp _ st1)
      cases segStepBody ft inp st i with
      | none => rfl
      | some st1 => exact ih st1

lemma Option.map_some_of_ne_none {α β : Type} (o : Option α) (f : α → β)
    (h : o ≠ none) : ∃ y, o.map f = some y := by
  cases o with
  | none => exact absurd rfl h
  | some a => exact ⟨f a, rfl⟩

lemma segStepBody_some (ft : String → String) (inp : ExtractInput)
    (st st1 : SegState) (i : Phrase)
    (h : segStepBody ft inp st i = some st1) :
    st1.pRight = i.x1 ∧ st1.paragraphObjects ≠ [] := by
  unfold segStepBody at h
  cases hd : pydiv (i.x1 - i.x0) (i.text.length : ℚ) with
  | none => rw [hd] at h; exact absurd h (by simp)
  | some ts =>
    rw [hd] at h
    simp only at h
    rcases Option.map_eq_some'.mp h with ⟨p2, _, hst⟩
    subst hst
    exact ⟨rfl, by simp⟩

lemma String.length_ne_zero_of_ne_empty (s : String) (h : s ≠ "") :
    (s.length : ℚ) ≠ 0 := by
  intro hq
  apply h
  have hz : s.length = 0 := by exact_mod_cast hq
  cases s with
  | mk data =>
    simp only [String.length] at hz
    rw [List.length_eq_zero] at hz
    simp [hz]

lemma styleFromFlags_ne_none (aTS aCS l ll : ℚ) (cf df : Bool)
    (hcs : aCS ≠ 0) : styleFromFlags aTS aCS l ll cf df ≠ none := by
  rw [styleFromFlags, pydiv, if_neg hcs]
  simp

lemma styledOf_ne_none (inp : ExtractInput) (aveTS left : ℚ)
    (cf df : Bool) (ps1 : ParaStyle) (hcs : inp.aveCS ≠ 0) :
    styledOf inp aveTS left cf df ps1 ≠ none := by
  unfold styledOf
  split
  · exact styleFromFlags_ne_none _ _ _ _ _ _ hcs
  · simp

lemma segStepBody_total (ft : String → String) (inp : ExtractInput)
    (st : SegState) (i : Phrase)
    (htext : i.text ≠ "") (hcs : inp.aveCS ≠ 0) :
    ∃ st1, segStepBody ft inp st i = some st1 := by
  have hlen := String.length_ne_zero_of_ne_empty i.text htext
  unfold segStepBody
  rw [pydiv, if_neg hlen]
  simp only
  exact Option.map_some_of_ne_none _ _ (styledOf_ne_none _ _ _ _ _ _ hcs)

lemma segLoopBody_pRight (ft : String → String) (inp : ExtractInput) :
    ∀ (l : List Phrase) (st st' : SegState),
      segLoopBody ft inp l st = some st' →
      st'.pRight = (l.getLast?).elim st.pRight (fun p => p.x1) := by
  intro l
  induction l with
  | nil =>
    intro st st' h
    rw [show segLoopBody ft inp [] st = some st from rfl, Option.some_inj] at h
    subst h
    rfl
  | cons i rest ih =>
    intro st st' h
    rw [show segLoopBody ft inp (i :: rest) st =
        (match segStepBody ft inp st i with
         | none => none
         | some st1 => segLoopBody ft inp rest st1) from rfl] at h
    cases hs : segStepBody ft inp st i with
    | none => rw [hs] at h; exact absurd h (by simp)
    | some st1 =>
      rw [hs] at h
      have h1 := (segStepBody_some ft inp st st1 i hs).1
      have h2 := ih st1 st' h
      cases rest with
      | nil =>
        have h3 : st'.pRight = st1.pRight := h2
        show st'.pRight = i.x1
        exact h3.trans h1
      | cons j t =>
        obtain ⟨p, hp⟩ : ∃ p, (j :: t).getLast? = some p := by
          cases ht : (j :: t).getLast? with
          | none => exact absurd (List.getLast?_eq_none_iff.mp ht) (by simp)
          | some p => exact ⟨p, rfl⟩
        rw [List.getLast?_cons_cons, hp]
        rw [hp] at h2
        exact h2

lemma segLoop_pRight (ft : String → String) (inp : ExtractInput)
    (phrases : List Phrase) (st' : SegState)
    (h : segLoop ft inp phrases (initSeg inp) = some st') :
    st'.pRight = lastSurvivingRight inp phrases := by
  rw [segLoop_eq_filter] at h
  have := segLoopBody_pRight ft inp _ _ _ h
  rw [this]
  rfl

lemma segLoop_total (ft : String → String) (inp : ExtractInput)
    (hcs : inp.aveCS ≠ 0) :
    ∀ (l : List Phrase) (st : SegState), (∀ p ∈ l, p.text ≠ "") →
      ∃ st', segLoop ft inp l st = some st' := by
  intro l
  induction l with
  | nil => intro st _; exact ⟨st, rfl⟩
  | cons i rest ih =>
    intro st hl
    rw [show segLoop ft inp (i :: rest) st =
        (match segStep ft inp st i with
         | none => none
         | some st1 => segLoop ft inp rest st1) from rfl]
    by_cases hexc : excluded inp i
    · rw [segStep, if_pos hexc]
      exact ih st (fun p hp => hl p (List.mem_cons_of_mem i hp))
    · rw [segStep, if_neg hexc]
      obtain ⟨st1, hs⟩ := segStepBody_total ft inp st i (hl i (List.mem_cons_self i rest)) hcs
      rw [hs]
      exact ih st1 (fun p hp => hl p (List.mem_cons_of_mem i hp))

lemma segLoop_objects_ne (ft : String → String) (inp : ExtractInput) :
    ∀ (l : List Phrase) (st st' : SegState),
      segLoop ft inp l st = some st' →
      ((∃ p ∈ l, ¬ excluded inp p) ∨ st.paragraphObjects ≠ []) →
      st'.paragraphObjects ≠ [] := by
  intro l
  induction l with
  | nil =>
    intro st st' h hd
    rw [show segLoop ft inp [] st = some st from rfl, Option.some_inj] at h
    subst h
    rcases hd with ⟨p, hp, _⟩ | hne
    · exact absurd hp (by simp)
    · exact hne
  | cons i rest ih =>
    intro st st' h hd
    rw [show segLoop ft inp (i :: rest) st =
        (match segStep ft inp st i with
         | none => none
         | some st1 => segLoop ft inp rest st1) from rfl] at h
    cases hs : segStep ft inp st i with
    | none => rw [hs] at h; exact absurd h (by simp)
    | some st1 =>
      rw [hs] at h
      by_cases hexc : excluded inp i
      · have hst1 : st1 = st := by
          rw [segStep, if_pos hexc, Option.some_inj] at hs
          exact hs.symm
        subst hst1
        have h' : segLoop ft inp rest st1 = some st' := h
        apply ih st1 st' h'
        rcases hd with ⟨p, hp, hnp⟩ | hne
        · rcases List.mem_cons.mp hp with hpi | hpr
          · exact absurd hexc (hpi ▸ hnp)
          · exact Or.inl ⟨p, hpr, hnp⟩
        · exact Or.inr hne
      · rw [segStep, if_neg hexc] at hs
        have h' : segLoop ft inp rest st1 = some st' := h
        exact ih st1 st' h' (Or.inr (segStepBody_some ft inp st st1 i hs).2)

lemma finalFlush_some_of (inp : ExtractInput) (st : SegState)
    (hobs : st.paragraphObjects ≠ []) (hcs : inp.aveCS ≠ 0) :
    ∃ ps, finalFlush inp st = some ps ∧ ps ≠ [] := by
  unfold finalFlush
  rw [if_neg hobs]
  cases hstyle : styleFromFlags st.aveTS inp.aveCS st.left inp.border.ll
      st.centerFlag st.divFlag with
  | none => exact absurd hstyle (styleFromFlags_ne_none _ _ _ _ _ _ hcs)
  | some s => exact ⟨_, rfl, by simp⟩

lemma contFlags_some (inp : ExtractInput) (phrases : List Phrase)
    (ps : List Paragraph) (pr : ℚ) (hps : ps ≠ []) (f : Phrase)
    (rest : List Phrase) (hph : phrases = f :: rest) (hf : f.text ≠ "") :
    ∃ a b, contFlags inp phrases ps pr = some (some a, some b) := by
  unfold contFlags
  rw [if_neg hps, hph]
  simp only
  rw [pydiv, if_neg (String.length_ne_zero_of_ne_empty f.text hf)]
  exact ⟨_, _, rfl⟩

/-- C1: the claim states that `extract_paragraph` completes without raising
on a phrase with empty text, the zero-length text being guarded by a safe
default.  The code contradicts this (and its own stated failure policy):
`ave_ts = max((x1 - x0) / len(text), ave_cs)` at line 423 divides by
`len(text) = 0` before the `max` can act, raising `ZeroDivisionError`
(line 500 repeats the same division for the continuation flags).  This
theorem evaluates the code on a page whose single phrase, with bbox
`(50, 100, 200, 112)` and empty text, survives all exclusion sets: the
method raises (`none`) instead of completing. -/
theorem c1_empty_text_phrase_raises :
    extract_paragraph id ⟨1, ⟨50, 0, 400, 800⟩, 10, 12, 450, false, [], [], [], []⟩
      [⟨50, 100, 200, 112, ""⟩] = none := by decide

/-- C2 counterexample: with line A bbox `(50, 100, 200, 112)`, line B bbox
`(50, 126, 200, 138)` (15-character texts, page average char size 10),
average line height 12 and border left 50 / right 400, `extract_paragraph`
produces TWO paragraphs with one `Text` entry each, not one paragraph with
two entries as claimed: the demotion to same-paragraph additionally
requires the previous line's right edge (200) to reach within 1.5
glyph-widths of the border's right edge (400), which fails. -/
theorem c2_merge_example_counterexample :
    (extract_paragraph id ⟨1, ⟨50, 0, 400, 800⟩, 10, 12, 450, false, [], [], [], []⟩
        [⟨50, 100, 200, 112, "aaaaaaaaaaaaaaa"⟩,
         ⟨50, 126, 200, 138, "aaaaaaaaaaaaaaa"⟩]).map
      (fun r => r.paragraphs.map fun p => p.innerObjects.length) = some [1, 1] := by
  have hlen : ("aaaaaaaaaaaaaaa" : String).length = 15 := by decide
  have hne : ("aaaaaaaaaaaaaaa" : String) ≠ "" := by decide
  norm_num [extract_paragraph, segLoop, segStep, segStepBody, excluded, initSeg,
    pydiv, styledOf, styleFromFlags, finalFlush, contFlags, ParaStyle.empty,
    hlen, hne, List.cons_ne_nil]

/-- C2 amended: same two lines, same average line height 12 and border left
edge 50, but border right edge 215 — so that line A's right edge 200 lies
within 1.5 glyph-widths of the border's right edge, as the demotion rule
additionally requires.  Then the vertical gap 14 is within 1.2 x 12 = 14.4,
the left edges match, and the two lines merge into one paragraph containing
two `Text` entries. -/
theorem c2_merge_example_amended :
    extract_paragraph id ⟨1, ⟨50, 0, 215, 800⟩, 10, 12, 450, false, [], [], [], []⟩
        [⟨50, 100, 200, 112, "aaaaaaaaaaaaaaa"⟩,
         ⟨50, 126, 200, 138, "aaaaaaaaaaaaaaa"⟩] =
      some ⟨[⟨1, 1, [PObj.text ⟨50, 100, 200, 112⟩ "aaaaaaaaaaaaaaa",
                     PObj.text ⟨50, 126, 200, 138⟩ "aaaaaaaaaaaaaaa"],
              ParaStyle.empty⟩],
            some false, some false⟩ := by
  have hlen : ("aaaaaaaaaaaaaaa" : String).length = 15 := by decide
  have hne : ("aaaaaaaaaaaaaaa" : String) ≠ "" := by decide
  norm_num [extract_paragraph, segLoop, segStep, segStepBody, excluded, initSeg,
    pydiv, styledOf, styleFromFlags, finalFlush, contFlags, ParaStyle.empty,
    hlen, hne, List.cons_ne_nil]

/-- C3 counterexample: the claim says `new_para_start_flag` is set false
exactly when the first phrase's left edge is WITHIN one glyph-width of the
border's left edge.  The code instead tests the signed difference
`first_phrase['x0'] - ll <= max(ave_ts, ave_cs)` (line 501): on a page
whose first phrase starts at `x0 = 0`, 50 units LEFT of the border's left
edge `ll = 50` (glyph width 10, `ave_cs` 10), the code still sets the flag
false although the distance 50 exceeds one glyph-width. -/
theorem c3_start_flag_counterexample :
    ((extract_paragraph id ⟨1, ⟨50, 0, 400, 800⟩, 10, 12, 450, false, [], [], [], []⟩
        [⟨0, 100, 150, 112, "aaaaaaaaaaaaaaa"⟩]).map
      (fun r => r.newParaStartFlag) = some (some false)) ∧
    ¬ (|(0 : ℚ) - 50| ≤ max 10 10) := by
  constructor
  ·
    have hlen : ("aaaaaaaaaaaaaaa" : String).length = 15 := by decide
    have hne : ("aaaaaaaaaaaaaaa" : String) ≠ "" := by decide
    norm_num [extract_paragraph, segLoop, segStep, segStepBody, excluded, initSeg,
      pydiv, styledOf, styleFromFlags, finalFlush, contFlags, ParaStyle.empty,
      hlen, hne, List.cons_ne_nil]
  · norm_num

/-- C7: phrases claimed by header/footer (`same_tmp`), tables, images or
pagination contribute to no paragraph: `extract_paragraph` factors through
first removing every phrase equal to a member of an exclusion set — its
entire result (paragraph loop, trailing flush and continuation flags) is
computed by running the skip-free loop body on the filtered phrase
sequence alone, so an excluded phrase is skipped and can contribute no
`Text` or `Span` entry to any paragraph. -/
theorem c7_exclusion_disjointness (ft : String → String) (inp : ExtractInput)
    (phrases : List Phrase) :
    extract_paragraph ft inp phrases =
      match segLoopBody ft inp (phrases.filter fun i => !decide (excluded inp i))
          (initSeg inp) with
      | none => none
      | some st =>
        match finalFlush inp st with
        | none => none
        | some paragraphs =>
          match contFlags inp phrases paragraphs st.pRight with
          | none => none
          | some fl => some ⟨paragraphs, fl.1, fl.2⟩ := by
  rw [extract_paragraph, segLoop_eq_filter]

/-- C8: `DePage` construction raises a type-mismatch error exactly when the
page object is not a pdfplumber `Page` or the configuration is not a depdf
`Config`; the checks run first in `__init__` with no surrounding handler,
so the error reaches the caller directly. -/
theorem c8_type_mismatch_iff (page config : PyKind) :
    (∃ e, dePage_init page config = Except.error e) ↔
      (page ≠ PyKind.plumberPage ∨ config ≠ PyKind.depdfConfig) := by
  cases page <;> cases config <;>
    simp [dePage_init, check_page_type, check_config_type, Bind.bind, Except.bind]

/-- C8 witness: a non-page object with a valid configuration is rejected. -/
theorem c8_type_mismatch_iff_witness :
    ∃ e, dePage_init PyKind.otherObject PyKind.depdfConfig = Except.error e :=
  (c8_type_mismatch_iff PyKind.otherObject PyKind.depdfConfig).mpr
    (Or.inl (by decide))

/-- C5: after `analyze_page_attributes` the vertical tolerance is 3 when
`ave_cs / 3 <= 3` and `ave_cs / 2` otherwise, the horizontal tolerance is
`ave_cs * 3 / 2` (i.e. `ave_cs * 1.5`), and an explicit configured
`y_tolerance` / `x_tolerance` value overrides the computed one. -/
theorem c5_adaptive_tolerances (cfg : DeConfig) (ext : Extern) (st : PageState) :
    (cfg.yTolerance = none → ext.charSize.1 / 3 ≤ 3 →
      (analyze_page_attributes cfg ext st).yTolerance = 3) ∧
    (cfg.yTolerance = none → ¬ ext.charSize.1 / 3 ≤ 3 →
      (analyze_page_attributes cfg ext st).yTolerance = ext.charSize.1 / 2) ∧
    (cfg.xTolerance = none →
      (analyze_page_attributes cfg ext st).xTolerance = ext.charSize.1 * 3 / 2) ∧
    (∀ v, cfg.yTolerance = some v →
      (analyze_page_attributes cfg ext st).yTolerance = v) ∧
    (∀ v, cfg.xTolerance = some v →
      (analyze_page_attributes cfg ext st).xTolerance = v) := by
  refine ⟨?_, ?_, ?_, ?_, ?_⟩
  · intro h1 h2
    simp [analyze_page_attributes, h1, if_pos h2]
  · intro h1 h2
    simp [analyze_page_attributes, h1, if_neg h2]
  · intro h1
    simp [analyze_page_attributes, h1]
  · intro v h1
    simp [analyze_page_attributes, h1]
  · intro v h1
    simp [analyze_page_attributes, h1]

/-- C5 witness: with no configured overrides and average char size 6, the
vertical tolerance is 3 (since 6 / 3 ≤ 3) and the horizontal tolerance is
6 * 3 / 2 = 9. -/
theorem c5_adaptive_tolerances_witness :
    (analyze_page_attributes ⟨none, none, none, false, false, false⟩
        { sampleExtern with charSize := (6, 2) } defaultPageState).yTolerance = 3 ∧
    (analyze_page_attributes ⟨none, none, none, false, false, false⟩
        { sampleExtern with charSize := (6, 2) } defaultPageState).xTolerance = 9 := by
  constructor
  · exact (c5_adaptive_tolerances ⟨none, none, none, false, false, false⟩
      { sampleExtern with charSize := (6, 2) } defaultPageState).1 rfl (by norm_num)
  · have h := (c5_adaptive_tolerances ⟨none, none, none, false, false, false⟩
      { sampleExtern with charSize := (6, 2) } defaultPageState).2.2.1 rfl
    rw [h]
    norm_num

/-- C4 counterexample: the claim asserts `frame_top ≤ frame_bottom` for
EVERY header/footer zone configuration.  With a matching head zone whose
bottom is 490 (margin 5) and a matching tail zone whose top is 10,
`analyze_main_frame` yields `frame_top = 495 > frame_bottom = 10`. -/
theorem c4_frame_invariant_counterexample :
    ¬ ((analyze_main_frame ⟨none, none, some 5, false, false, false⟩ sampleExtern
          { defaultPageState with
              orientation := "portrait",
              same := [⟨"portrait", "head", 490, 500⟩,
                       ⟨"portrait", "tail", 10, 20⟩] }).frameTop ≤
        (analyze_main_frame ⟨none, none, some 5, false, false, false⟩ sampleExtern
          { defaultPageState with
              orientation := "portrait",
              same := [⟨"portrait", "head", 490, 500⟩,
                       ⟨"portrait", "tail", 10, 20⟩] }).frameBottom) := by
  have e1 : decide (("head" : String) = "tail") = false := by decide
  have e2 : decide (("tail" : String) = "head") = false := by decide
  have e3 : decide (("head" : String) = "head") = true := by decide
  have e4 : decide (("tail" : String) = "tail") = true := by decide
  norm_num [analyze_main_frame, mainFrameMft, pymax, pymin, defaultPageState,
    sampleExtern, List.filter, e1, e2, e3, e4]

lemma foldl_max_le (xs : List ℚ) : ∀ (a c : ℚ), a ≤ c → (∀ x ∈ xs, x ≤ c) →
    xs.foldl max a ≤ c := by
  induction xs with
  | nil => intro a c ha _; exact ha
  | cons x t ih =>
    intro a c ha hx
    show t.foldl max (max a x) ≤ c
    exact ih (max a x) c (max_le ha (hx x (by simp)))
      (fun y hy => hx y (by simp [hy]))

lemma le_foldl_min (xs : List ℚ) : ∀ (a c : ℚ), c ≤ a → (∀ x ∈ xs, c ≤ x) →
    c ≤ xs.foldl min a := by
  induction xs with
  | nil => intro a c ha _; exact ha
  | cons x t ih =>
    intro a c ha hx
    show c ≤ t.foldl min (min a x)
    exact ih (min a x) c (le_min ha (hx x (by simp)))
      (fun y hy => hx y (by simp [hy]))

lemma pymax_le (l : List ℚ) (M c : ℚ) (hM : pymax l = some M)
    (h : ∀ y ∈ l, y ≤ c) : M ≤ c := by
  cases l with
  | nil => exact absurd hM (by simp [pymax])
  | cons x xs =>
    rw [pymax, Option.some_inj] at hM
    subst hM
    exact foldl_max_le xs x c (h x (by simp)) (fun y hy => h y (by simp [hy]))

lemma le_pymin (l : List ℚ) (m c : ℚ) (hm : pymin l = some m)
    (h : ∀ y ∈ l, c ≤ y) : c ≤ m := by
  cases l with
  | nil => exact absurd hm (by simp [pymin])
  | cons x xs =>
    rw [pymin, Option.some_inj] at hm
    subst hm
    exact le_foldl_min xs x c (h x (by simp)) (fun y hy => h y (by simp [hy]))

/-- C4 amended: `frame_top ≤ frame_bottom` holds after `analyze_main_frame`
for every non-degenerate header/footer configuration: the page height is
non-negative, every orientation-matching head zone's bottom plus the margin
stays within the page, every orientation-matching tail zone's top is
non-negative, and every matching head zone ends (bottom + margin) at or
above every matching tail zone's top.  (The unamended universal claim is
refuted by `c4_frame_invariant_counterexample`; the spec itself notes that
callers must guard against degenerate configurations.) -/
theorem c4_frame_invariant_amended (cfg : DeConfig) (ext : Extern)
    (st : PageState) (hh : 0 ≤ ext.pageHeight)
    (hhead : ∀ z ∈ st.same, z.mode = st.orientation → z.level = "head" →
      z.bottom + mainFrameMft cfg st ≤ ext.pageHeight)
    (htail : ∀ z ∈ st.same, z.mode = st.orientation → z.level = "tail" →
      0 ≤ z.top)
    (hht : ∀ z1 ∈ st.same, ∀ z2 ∈ st.same,
      z1.mode = st.orientation → z1.level = "head" →
      z2.mode = st.orientation → z2.level = "tail" →
      z1.bottom + mainFrameMft cfg st ≤ z2.top) :
    (analyze_main_frame cfg ext st).frameTop ≤
      (analyze_main_frame cfg ext st).frameBottom := by
  unfold analyze_main_frame
  dsimp only
  have hmemT : ∀ y ∈ (st.same.filter fun i =>
      decide (i.mode = st.orientation ∧ i.level = "head")).map
        (fun i => i.bottom + mainFrameMft cfg st),
      ∃ z ∈ st.same, z.mode = st.orientation ∧ z.level = "head" ∧
        y = z.bottom + mainFrameMft cfg st := by
    intro y hy
    rcases List.mem_map.mp hy with ⟨z, hz, hzy⟩
    rcases List.mem_filter.mp hz with ⟨hz1, hz2⟩
    rcases of_decide_eq_true hz2 with ⟨hm, hl⟩
    exact ⟨z, hz1, hm, hl, hzy.symm⟩
  have hmemB : ∀ y ∈ (st.same.filter fun i =>
      decide (i.mode = st.orientation ∧ i.level = "tail")).map
        (fun i => i.top),
      ∃ z ∈ st.same, z.mode = st.orientation ∧ z.level = "tail" ∧ y = z.top := by
    intro y hy
    rcases List.mem_map.mp hy with ⟨z, hz, hzy⟩
    rcases List.mem_filter.mp hz with ⟨hz1, hz2⟩
    rcases of_decide_eq_true hz2 with ⟨hm, hl⟩
    exact ⟨z, hz1, hm, hl, hzy.symm⟩
  cases hT : pymax ((st.same.filter fun i =>
      decide (i.mode = st.orientation ∧ i.level = "head")).map
        (fun i => i.bottom + mainFrameMft cfg st)) with
  | none =>
    cases hB : pymin ((st.same.filter fun i =>
        decide (i.mode = st.orientation ∧ i.level = "tail")).map
          (fun i => i.top)) with
    | none => simpa [hT, hB] using hh
    | some m =>
      have : (0 : ℚ) ≤ m := by
        apply le_pymin _ m 0 hB
        intro y hy
        rcases hmemB y hy with ⟨z, hz, hm', hl, hyz⟩
        exact hyz ▸ htail z hz hm' hl
      simpa [hT, hB] using this
  | some M =>
    cases hB : pymin ((st.same.filter fun i =>
        decide (i.mode = st.orientation ∧ i.level = "tail")).map
          (fun i => i.top)) with
    | none =>
      have : M ≤ ext.pageHeight := by
        apply pymax_le _ M _ hT
        intro y hy
        rcases hmemT y hy with ⟨z, hz, hm', hl, hyz⟩
        exact hyz ▸ hhead z hz hm' hl
      simpa [hT, hB] using this
    | some m =>
      have : M ≤ m := by
        apply pymax_le _ M m hT
        intro y hy
        rcases hmemT y hy with ⟨z1, hz1, hm1, hl1, hyz1⟩
        apply le_pymin _ m y hB
        intro w hw
        rcases hmemB w hw with ⟨z2, hz2, hm2, hl2, hwz2⟩
        rw [hyz1, hwz2]
        exact hht z1 hz1 z2 hz2 hm1 hl1 hm2 hl2
      simpa [hT, hB] using this

/-- C4 amended witness: one matching head zone ending at 110 + margin 5 and
one matching tail zone starting at 700 on an 800-high page satisfies the
non-degeneracy hypotheses, and the frame invariant holds. -/
theorem c4_frame_invariant_amended_witness :
    (analyze_main_frame ⟨none, none, some 5, false, false, false⟩ sampleExtern
        { defaultPageState with
            orientation := "portrait",
            same := [⟨"portrait", "head", 100, 110⟩,
                     ⟨"portrait", "tail", 700, 710⟩] }).frameTop ≤
      (analyze_main_frame ⟨none, none, some 5, false, false, false⟩ sampleExtern
        { defaultPageState with
            orientation := "portrait",
            same := [⟨"portrait", "head", 100, 110⟩,
                     ⟨"portrait", "tail", 700, 710⟩] }).frameBottom := by
  apply c4_frame_invariant_amended
  · norm_num [sampleExtern]
  · intro z hz h1 h2
    fin_cases hz <;> (simp_all [mainFrameMft, sampleExtern, defaultPageState]; try norm_num)
  · intro z hz h1 h2
    fin_cases hz <;> simp_all
  · intro z1 hz1 z2 hz2 h1 h2 h3 h4
    fin_cases hz1 <;> fin_cases hz2 <;>
      (simp_all [mainFrameMft, sampleExtern, defaultPageState]; try norm_num)

lemma length_insertSorted (x : ℚ) : ∀ (l : List ℚ),
    (insertSorted x l).length = l.length + 1 := by
  intro l
  induction l with
  | nil => rfl
  | cons y ys ih =>
    rw [insertSorted]
    split
    · rfl
    · simp [ih]

lemma length_isort : ∀ (l : List ℚ), (isort l).length = l.length := by
  intro l
  induction l with
  | nil => rfl
  | cons x xs ih =>
    rw [isort, length_insertSorted, ih]
    rfl

lemma pyMedian_some (l : List ℚ) (h : l ≠ []) : ∃ m, pyMedian l = some m := by
  unfold pyMedian
  have hn : (isort l).length ≠ 0 := by
    rw [length_isort]
    simpa using h
  rw [if_neg hn]
  by_cases hodd : (isort l).length % 2 = 1
  · rw [if_pos hodd]
    have hlt : (isort l).length / 2 < (isort l).length :=
      Nat.div_lt_self (Nat.pos_of_ne_zero hn) (by norm_num)
    rw [List.getElem?_eq_getElem hlt]
    exact ⟨_, rfl⟩
  · rw [if_neg hodd]
    have h2 : 2 ≤ (isort l).length := by omega
    have ha : (isort l).length / 2 - 1 < (isort l).length := by omega
    have hb : (isort l).length / 2 < (isort l).length :=
      Nat.div_lt_self (Nat.pos_of_ne_zero hn) (by norm_num)
    rw [List.getElem?_eq_getElem ha, List.getElem?_eq_getElem hb]
    exact ⟨_, rfl⟩

/-- C6: phrase normalization in `extract_phrases`.  If the crop of the page
to the phrase's bbox yields a nonempty glyph list, the phrase's `top` and
`bottom` are replaced by the median glyph `top` and median glyph `bottom`;
if the crop fails (raises) or yields no glyphs, the phrase is returned
unchanged — in every case `normalizePhrase` returns a phrase, so no error
propagates out of `extract_phrases`. -/
theorem c6_phrase_normalization (crop : BBox → Option (List Glyph)) (w : Phrase) :
    (∀ cs, crop ⟨w.x0, w.top, w.x1, w.bottom⟩ = some cs → cs ≠ [] →
      ∃ t b, pyMedian (cs.map Glyph.top) = some t ∧
        pyMedian (cs.map Glyph.bottom) = some b ∧
        normalizePhrase crop w = { w with top := t, bottom := b }) ∧
    (crop ⟨w.x0, w.top, w.x1, w.bottom⟩ = none → normalizePhrase crop w = w) ∧
    (crop ⟨w.x0, w.top, w.x1, w.bottom⟩ = some [] → normalizePhrase crop w = w) := by
  refine ⟨?_, ?_, ?_⟩
  · intro cs hcrop hne
    obtain ⟨t, ht⟩ := pyMedian_some (cs.map Glyph.top) (by simpa using hne)
    obtain ⟨b, hb⟩ := pyMedian_some (cs.map Glyph.bottom) (by simpa using hne)
    refine ⟨t, b, ht, hb, ?_⟩
    rw [normalizePhrase, hcrop]
    dsimp only
    rw [ht, hb]
  · intro hcrop
    rw [normalizePhrase, hcrop]
  · intro hcrop
    rw [normalizePhrase, hcrop]
    rfl

/-- C6 witness: a crop that yields one glyph with top 10 and bottom 20
rewrites the phrase bounds to the (one-element) medians 10 and 20. -/
theorem c6_phrase_normalization_witness :
    ∃ t b, pyMedian ([Glyph.mk 10 20].map Glyph.top) = some t ∧
      pyMedian ([Glyph.mk 10 20].map Glyph.bottom) = some b ∧
      normalizePhrase (fun _ => some [Glyph.mk 10 20]) ⟨0, 0, 5, 5, "ab"⟩ =
        { (⟨0, 0, 5, 5, "ab"⟩ : Phrase) with top := t, bottom := b } :=
  (c6_phrase_normalization (fun _ => some [Glyph.mk 10 20]) ⟨0, 0, 5, 5, "ab"⟩).1
    [Glyph.mk 10 20] rfl (by simp)

/-- C3 amended: after `extract_paragraph`, if there are no paragraphs both
continuation flags are unset (`None`); if there is at least one paragraph
both flags default to true, `new_para_start_flag` is set false exactly when
the first phrase's left edge exceeds the border's left edge by at most one
glyph-width — the code tests the signed difference
`first_phrase['x0'] - ll ≤ max(ave_ts, ave_cs)`, not the absolute distance
(see `c3_start_flag_counterexample`) — and `new_para_end_flag` is set false
exactly when the last processed line's right edge is within 1.5
glyph-widths of the border's right edge. -/
theorem c3_continuation_flags_amended (ft : String → String)
    (inp : ExtractInput) (phrases : List Phrase) (r : ExtractResult)
    (h : extract_paragraph ft inp phrases = some r) :
    (r.paragraphs = [] → r.newParaStartFlag = none ∧ r.newParaEndFlag = none) ∧
    (r.paragraphs ≠ [] → ∃ f rest ts, phrases = f :: rest ∧
      pydiv (f.x1 - f.x0) (f.text.length : ℚ) = some ts ∧
      r.newParaStartFlag =
        some (if f.x0 - inp.border.ll ≤ max ts inp.aveCS then false else true) ∧
      r.newParaEndFlag =
        some (if |lastSurvivingRight inp phrases - inp.border.lr| ≤
                 max ts inp.aveCS * 3 / 2 then false else true)) := by
  unfold extract_paragraph at h
  cases hl : segLoop ft inp phrases (initSeg inp) with
  | none => rw [hl] at h; exact absurd h (by simp)
  | some st =>
    rw [hl] at h
    simp only at h
    cases hf : finalFlush inp st with
    | none => rw [hf] at h; exact absurd h (by simp)
    | some ps =>
      rw [hf] at h
      simp only at h
      cases hc : contFlags inp phrases ps st.pRight with
      | none => rw [hc] at h; exact absurd h (by simp)
      | some fl =>
        rw [hc] at h
        simp only at h
        have hr : (⟨ps, fl.1, fl.2⟩ : ExtractResult) = r := by
          simpa using h
        subst hr
        constructor
        · intro hps
          have hps' : ps = [] := hps
          unfold contFlags at hc
          rw [if_pos hps'] at hc
          have : (none, none) = fl := by simpa using hc
          subst this
          exact ⟨rfl, rfl⟩
        · intro hps
          have hps' : ps ≠ [] := hps
          cases phrases with
          | nil =>
            have hst : initSeg inp = st := by simpa [segLoop] using hl
            subst hst
            have : some (initSeg inp).paragraphs = some ps := by
              simpa [finalFlush, initSeg] using hf
            rw [Option.some_inj] at this
            exact absurd this.symm (by simpa [initSeg] using hps')
          | cons f rest =>
            unfold contFlags at hc
            rw [if_neg hps'] at hc
            cases hd : pydiv (f.x1 - f.x0) (f.text.length : ℚ) with
            | none =>
              rw [show (match f :: rest with
                  | [] => some (some true, some true)
                  | f :: _ =>
                    match pydiv (f.x1 - f.x0) (f.text.length : ℚ) with
                    | none => none
                    | some ts =>
                      some (some (if f.x0 - inp.border.ll ≤ max ts inp.aveCS
                              then false else true),
                            some (if |st.pRight - inp.border.lr| ≤
                                max ts inp.aveCS * 3 / 2 then false else true)) :
                  Option (Option Bool × Option Bool)) =
                (match pydiv (f.x1 - f.x0) (f.text.length : ℚ) with
                  | none => none
                  | some ts =>
                    some (some (if f.x0 - inp.border.ll ≤ max ts inp.aveCS
                            then false else true),
                          some (if |st.pRight - inp.border.lr| ≤
                              max ts inp.aveCS * 3 / 2 then false else true)) :
                  Option (Option Bool × Option Bool)) from rfl, hd] at hc
              exact absurd hc (by simp)
            | some ts =>
              have hpr := segLoop_pRight ft inp (f :: rest) st hl
              refine ⟨f, rest, ts, rfl, hd, ?_, ?_⟩
              · have : some (some (if f.x0 - inp.border.ll ≤ max ts inp.aveCS
                      then false else true),
                    some (if |st.pRight - inp.border.lr| ≤
                        max ts inp.aveCS * 3 / 2 then false else true)) = some fl := by
                  rw [← hc]
                  rw [show (match f :: rest with
                      | [] => some (some true, some true)
                      | f :: _ =>
                        match pydiv (f.x1 - f.x0) (f.text.length : ℚ) with
                        | none => none
                        | some ts =>
                          some (some (if f.x0 - inp.border.ll ≤ max ts inp.aveCS
                                  then false else true),
                                some (if |st.pRight - inp.border.lr| ≤
                                    max ts inp.aveCS * 3 / 2 then false else true)) :
                      Option (Option Bool × Option Bool)) =
                    (match pydiv (f.x1 - f.x0) (f.text.length : ℚ) with
                      | none => none
                      | some ts =>
                        some (some (if f.x0 - inp.border.ll ≤ max ts inp.aveCS
                                then false else true),
                              some (if |st.pRight - inp.border.lr| ≤
                                  max ts inp.aveCS * 3 / 2 then false else true)) :
                      Option (Option Bool × Option Bool)) from rfl, hd]
                rw [Option.some_inj] at this
                rw [← this]
              · have : some (some (if f.x0 - inp.border.ll ≤ max ts inp.aveCS
                      then false else true),
                    some (if |st.pRight - inp.border.lr| ≤
                        max ts inp.aveCS * 3 / 2 then false else true)) = some fl := by
                  rw [← hc]
                  rw [show (match f :: rest with
                      | [] => some (some true, some true)
                      | f :: _ =>
                        match pydiv (f.x1 - f.x0) (f.text.length : ℚ) with
                        | none => none
                        | some ts =>
                          some (some (if f.x0 - inp.border.ll ≤ max ts inp.aveCS
                                  then false else true),
                                some (if |st.pRight - inp.border.lr| ≤
                                    max ts inp.aveCS * 3 / 2 then false else true)) :
                      Option (Option Bool × Option Bool)) =
                    (match pydiv (f.x1 - f.x0) (f.text.length : ℚ) with
                      | none => none
                      | some ts =>
                        some (some (if f.x0 - inp.border.ll ≤ max ts inp.aveCS
                                then false else true),
                              some (if |st.pRight - inp.border.lr| ≤
                                  max ts inp.aveCS * 3 / 2 then false else true)) :
                      Option (Option Bool × Option Bool)) from rfl, hd]
                rw [Option.some_inj] at this
                rw [← this, ← hpr]

/-- C3 amended witness: a page with one phrase starting one glyph-width
right of the border's left edge; the amended characterization is applied to
the computed result (start flag false, end flag true). -/
theorem c3_continuation_flags_amended_witness :
    ∃ r, extract_paragraph id
        ⟨1, ⟨50, 0, 400, 800⟩, 10, 12, 450, false, [], [], [], []⟩
        [⟨60, 100, 90, 112, "aaa"⟩] = some r ∧
      (r.paragraphs = [] → r.newParaStartFlag = none ∧ r.newParaEndFlag = none) ∧
      r.newParaStartFlag = some false ∧ r.newParaEndFlag = some true := by
  have hlen : ("aaa" : String).length = 3 := by decide
  have hne : ("aaa" : String) ≠ "" := by decide
  have hsome : extract_paragraph id
      ⟨1, ⟨50, 0, 400, 800⟩, 10, 12, 450, false, [], [], [], []⟩
      [⟨60, 100, 90, 112, "aaa"⟩] =
      some ⟨[⟨1, 1, [PObj.text ⟨60, 100, 90, 112⟩ "aaa"], ParaStyle.empty⟩],
            some false, some true⟩ := by
    norm_num [extract_paragraph, segLoop, segStep, segStepBody, excluded, initSeg,
      pydiv, styledOf, styleFromFlags, finalFlush, contFlags, ParaStyle.empty,
      hlen, hne, List.cons_ne_nil]
  exact ⟨_, hsome, (c3_continuation_flags_amended id _ _ _ hsome).1, rfl, rfl⟩

/-- C10 counterexample: the claim asserts that whenever at least one phrase
survives all exclusion sets, `extract_paragraph` produces at least one
`Paragraph` and boolean continuation flags.  A surviving phrase with empty
text instead makes the method raise (`ZeroDivisionError` computing
`ave_ts`), so no paragraph is produced at all. -/
theorem c10_at_least_one_paragraph_counterexample :
    extract_paragraph id ⟨1, ⟨50, 0, 400, 800⟩, 10, 12, 450, false, [], [], [], []⟩
      [⟨10, 30, 40, 42, ""⟩] = none ∧
    ¬ excluded ⟨1, ⟨50, 0, 400, 800⟩, 10, 12, 450, false, [], [], [], []⟩
      ⟨10, 30, 40, 42, ""⟩ := by
  constructor
  · decide
  · decide

/-- C10 amended: provided the page's average char size is nonzero (which
upstream statistics analysis guarantees via its default fallback) and every
phrase's text is nonempty, a page with at least one phrase surviving all
exclusion sets yields at least one `Paragraph` — the surviving phrases are
always appended to `paragraph_objects` and the trailing accumulation is
flushed after the loop — and both continuation flags are then booleans
rather than `None`. -/
theorem c10_at_least_one_paragraph_amended (ft : String → String)
    (inp : ExtractInput) (phrases : List Phrase)
    (hcs : inp.aveCS ≠ 0) (htext : ∀ p ∈ phrases, p.text ≠ "")
    (hs : ∃ p ∈ phrases, ¬ excluded inp p) :
    ∃ r, extract_paragraph ft inp phrases = some r ∧ r.paragraphs ≠ [] ∧
      (∃ a, r.newParaStartFlag = some a) ∧ (∃ b, r.newParaEndFlag = some b) := by
  obtain ⟨st, hl⟩ := segLoop_total ft inp hcs phrases (initSeg inp) htext
  have hobs : st.paragraphObjects ≠ [] :=
    segLoop_objects_ne ft inp phrases _ st hl (Or.inl hs)
  obtain ⟨ps, hf, hpsne⟩ := finalFlush_some_of inp st hobs hcs
  obtain ⟨p0, hp0, _⟩ := hs
  cases phrases with
  | nil => exact absurd hp0 (by simp)
  | cons f rest =>
    have hftext : f.text ≠ "" := htext f (by simp)
    obtain ⟨a, b, hc⟩ := contFlags_some inp (f :: rest) ps st.pRight hpsne f rest rfl hftext
    refine ⟨⟨ps, some a, some b⟩, ?_, hpsne, ⟨a, rfl⟩, ⟨b, rfl⟩⟩
    unfold extract_paragraph
    rw [hl]
    simp only
    rw [hf]
    simp only
    rw [hc]

/-- C10 amended witness: one surviving three-character phrase with average
char size 10 produces a paragraph and boolean flags. -/
theorem c10_at_least_one_paragraph_amended_witness :
    ∃ r, extract_paragraph id
        ⟨1, ⟨50, 0, 400, 800⟩, 10, 12, 450, false, [], [], [], []⟩
        [⟨60, 100, 90, 112, "abc"⟩] = some r ∧ r.paragraphs ≠ [] ∧
      (∃ a, r.newParaStartFlag = some a) ∧ (∃ b, r.newParaEndFlag = some b) :=
  c10_at_least_one_paragraph_amended id
    ⟨1, ⟨50, 0, 400, 800⟩, 10, 12, 450, false, [], [], [], []⟩
    [⟨60, 100, 90, 112, "abc"⟩] (by norm_num) (by decide)
    ⟨⟨60, 100, 90, 112, "abc"⟩, by simp, by decide⟩

lemma extract_paragraph_stage_tocFlag (ext : Extern) (ft : String → String)
    (s s' : PageState) (h : extract_paragraph_stage ext ft s = some s') :
    s'.tocFlag = s.tocFlag := by
  unfold extract_paragraph_stage at h
  cases hr : extract_paragraph ft (mkExtractInput ext s) s.phrases with
  | none => rw [hr] at h; exact absurd h (by simp)
  | some r =>
    rw [hr] at h
    simp only [Option.some_inj] at h
    subst h
    rfl

/-- C9: `process_page` never invokes `check_if_toc_page`: none of its stages
writes `toc_flag`, so the flag after `process_page` equals the flag before —
in particular a page processed solely through the `objects`/`process_page`
pipeline keeps the class default `toc_flag = False`.  Moreover, whenever the
extraction input carries `toc_flag = false`, the `extract_paragraph` loop
body coincides with `segStepBodyNormal`, the body with the
table-of-contents branch removed — the TOC branch is never taken.  TOC mode
can only activate if a caller invokes `check_if_toc_page` (or sets the
flag) externally beforehand. -/
theorem c9_process_page_toc_flag (cfg : DeConfig) (ext : Extern)
    (ft : String → String) (st st' : PageState)
    (h : process_page cfg ext ft st = some st') :
    st'.tocFlag = st.tocFlag ∧
    (∀ (inp : ExtractInput) (sg : SegState) (i : Phrase), inp.tocFlag = false →
      segStepBody ft inp sg i = segStepBodyNormal ft inp sg i) := by
  constructor
  · unfold process_page at h
    by_cases h4 : cfg.tableFlag <;> by_cases h5 : cfg.imageFlag <;>
      by_cases h6 : cfg.paragraphFlag <;>
      simp only [h4, h5, h6, if_pos, if_neg, if_true, if_false,
        Bool.false_eq_true] at h
    all_goals first
      | (rw [extract_paragraph_stage_tocFlag ext ft _ st' h]; rfl)
      | (rw [Option.some_inj] at h; subst h; rfl)
  · intro inp sg i htoc
    simp only [segStepBody, segStepBodyNormal, htoc, Bool.false_eq_true,
      if_false]

/-- C9 witness: a full `process_page` run on the default page state with all
feature flags on keeps `toc_flag = false`, and a sample loop step with
`toc_flag = false` equals the TOC-free step. -/
theorem c9_process_page_toc_flag_witness :
    ∃ st', process_page ⟨none, none, none, true, true, true⟩ sampleExtern id
        defaultPageState = some st' ∧ st'.tocFlag = defaultPageState.tocFlag ∧
      segStepBody id (mkExtractInput sampleExtern defaultPageState)
          (initSeg (mkExtractInput sampleExtern defaultPageState))
          ⟨0, 0, 10, 10, "ab"⟩ =
        segStepBodyNormal id (mkExtractInput sampleExtern defaultPageState)
          (initSeg (mkExtractInput sampleExtern defaultPageState))
          ⟨0, 0, 10, 10, "ab"⟩ := by
  cases hp : process_page ⟨none, none, none, true, true, true⟩ sampleExtern id
      defaultPageState with
  | none =>
    exfalso
    norm_num [process_page, analyze_page_attributes, analyze_main_frame,
      extract_phrases, analyze_lines, extract_tables, extract_images,
      analyze_paragraph_border, extract_paragraph_stage, mkExtractInput,
      extract_paragraph, segLoop, finalFlush, contFlags, initSeg, pairGaps,
      pymax, pymin, mainFrameMft, sampleExtern, defaultPageState,
      Option.getD] at hp
    exact Option.noConfusion hp
  | some s =>
    refine ⟨s, rfl, (c9_process_page_toc_flag _ _ _ _ _ hp).1, ?_⟩
    exact (c9_process_page_toc_flag _ _ _ _ _ hp).2 _ _ _ rfl
